import Mathlib

/-!
Shallow embedding of the Medication Adherence and Notification Scheduling
Engine of the elderly-medicare backend (app/models/notification.py,
app/models/medication.py, app/models/health_record.py,
app/tasks/notification_tasks.py, app/tasks/scheduled_tasks.py).

Time instants are rational numbers: seconds for the notification
lifecycle, days for the medication dosing model.  Nullable numeric
columns become Option Rat; Python truthiness tests on them (both None
and 0 are falsy) are modelled by the function truthy below.
-/

namespace ElderlyMedicare

/-- Python truthiness of a nullable numeric column: None and 0 are falsy. -/
def truthy (v : Option ℚ) : Bool :=
  match v with
  | none => false
  | some x => decide (x ≠ 0)

/-- Value of a nullable numeric column; only read behind a truthiness guard,
so the default 0 is never observable. -/
def val (v : Option ℚ) : ℚ := v.getD 0

/-- Python int() applied to a rational: truncation toward zero. -/
def py_int (q : ℚ) : ℤ := if 0 ≤ q then ⌊q⌋ else ⌈q⌉

/-! ## Notification model (app/models/notification.py) -/

/-- NotificationStatus enum. -/
inductive NotificationStatus
  | pending
  | sent
  | delivered
  | read
  | failed
  | cancelled
deriving DecidableEq, Repr

/-- NotificationChannel enum. -/
inductive NotificationChannel
  | email
  | sms
  | push
  | in_app
  | phone_call
  | portal
deriving DecidableEq, Repr

/-- NotificationPriority enum. -/
inductive NotificationPriority
  | low
  | medium
  | high
  | urgent
  | critical
deriving DecidableEq, Repr

/-- NotificationType enum (the variants the engine creates). -/
inductive NotificationType
  | medication_reminder
  | appointment_reminder
  | health_alert
  | emergency_alert
  | refill_reminder
  | system_alert
  | other
deriving DecidableEq, Repr

/-- Notification row: the columns the lifecycle engine reads or writes. -/
structure Notification where
  user_id : ℤ
  patient_id : Option ℤ
  title : String
  message : String
  notification_type : NotificationType
  priority : NotificationPriority
  channel : NotificationChannel
  status : NotificationStatus
  scheduled_for : Option ℚ
  expires_at : Option ℚ
  sent_at : Option ℚ
  delivered_at : Option ℚ
  read_at : Option ℚ
  failed_at : Option ℚ
  failure_reason : Option String
  retry_count : ℕ
  max_retries : ℕ
  next_retry_at : Option ℚ
  is_read : Bool
  action_text : Option String
deriving DecidableEq, Repr

/-- Notification.is_expired: expires_at is set and now is strictly past it. -/
def is_expired (n : Notification) (now : ℚ) : Bool :=
  match n.expires_at with
  | some e => decide (now > e)
  | none => false

/-- Notification.can_retry: failed, retries left, and not expired. -/
def can_retry (n : Notification) (now : ℚ) : Bool :=
  decide (n.status = NotificationStatus.failed) &&
  decide (n.retry_count < n.max_retries) &&
  ! is_expired n now

/-- The exponential-backoff delay computed inside mark_as_failed:
min(300 * 2 ** retry_count, 3600) seconds, where retry_count is the value
already incremented by the current call. -/
def retry_delay (retry_count : ℕ) : ℕ :=
  min (300 * 2 ^ retry_count) 3600

/-- Notification.mark_as_failed(reason): set status failed, stamp failed_at,
record the reason, increment retry_count, and, if can_retry still holds on
the updated row, schedule next_retry_at with exponential backoff. -/
def mark_as_failed (n : Notification) (reason : Option String) (now : ℚ) :
    Notification :=
  let n1 := { n with
    status := NotificationStatus.failed
    failed_at := some now
    failure_reason := reason
    retry_count := n.retry_count + 1 }
  if can_retry n1 now then
    { n1 with next_retry_at := some (now + (retry_delay n1.retry_count : ℚ)) }
  else n1

/-- Notification.mark_as_sent. -/
def mark_as_sent (n : Notification) (now : ℚ) : Notification :=
  { n with status := NotificationStatus.sent, sent_at := some now }

/-- Notification.mark_as_delivered: unconditional, no precondition on the
current status. -/
def mark_as_delivered (n : Notification) (now : ℚ) : Notification :=
  { n with status := NotificationStatus.delivered, delivered_at := some now }

/-- Notification.mark_as_read. -/
def mark_as_read (n : Notification) (now : ℚ) : Notification :=
  { n with status := NotificationStatus.read, read_at := some now, is_read := true }

/-- Notification.cancel. -/
def cancel (n : Notification) : Notification :=
  { n with status := NotificationStatus.cancelled }

/-- Outcome of the external transport for one delivery attempt
(email_service.send_email, sms_service.send_sms, push). -/
inductive ChannelOutcome
  | success
  | failure (reason : String)
deriving DecidableEq, Repr

/-- Return value of the send_notification task. -/
inductive DispatchStatus
  | skipped
  | expired
  | success
  | failed
deriving DecidableEq, Repr

/-- The channel branch of send_notification: in_app always succeeds without
external dispatch; email, sms and push delegate to the transport; any other
channel leaves success False with an unsupported-channel error. -/
def channel_send (n : Notification) (outcome : ChannelOutcome) :
    Bool × Option String :=
  match n.channel with
  | NotificationChannel.email =>
      match outcome with
      | ChannelOutcome.success => (true, none)
      | ChannelOutcome.failure r => (false, some r)
  | NotificationChannel.sms =>
      match outcome with
      | ChannelOutcome.success => (true, none)
      | ChannelOutcome.failure r => (false, some r)
  | NotificationChannel.push =>
      match outcome with
      | ChannelOutcome.success => (true, none)
      | ChannelOutcome.failure r => (false, some r)
  | NotificationChannel.in_app => (true, none)
  | NotificationChannel.phone_call => (false, some "Unsupported notification channel")
  | NotificationChannel.portal => (false, some "Unsupported notification channel")

/-- The send_notification task body (after the row is loaded): skip unless
pending; cancel and report expired when past expires_at, before any channel
dispatch; otherwise attempt the channel and either mark sent or mark failed. -/
def send_notification (n : Notification) (now : ℚ) (outcome : ChannelOutcome) :
    Notification × DispatchStatus :=
  if n.status ≠ NotificationStatus.pending then (n, DispatchStatus.skipped)
  else if is_expired n now then
    ({ n with status := NotificationStatus.cancelled }, DispatchStatus.expired)
  else
    let r := channel_send n outcome
    if r.1 then
      ({ n with status := NotificationStatus.sent, sent_at := some now },
       DispatchStatus.success)
    else (mark_as_failed n r.2 now, DispatchStatus.failed)

/-- Eligibility filter of the retry_failed_notifications task: failed,
retries left, next_retry_at unset or elapsed, not expired. -/
def retry_eligible (n : Notification) (now : ℚ) : Bool :=
  decide (n.status = NotificationStatus.failed) &&
  decide (n.retry_count < n.max_retries) &&
  (match n.next_retry_at with
   | some t => decide (t ≤ now)
   | none => true) &&
  (match n.expires_at with
   | some e => decide (e > now)
   | none => true)

/-- Per-row action of retry_failed_notifications: reset an eligible failed
notification to pending and clear next_retry_at. -/
def retry_reset (n : Notification) (now : ℚ) : Notification :=
  if retry_eligible n now then
    { n with status := NotificationStatus.pending, next_retry_at := none }
  else n

/-- Per-row action of cleanup_expired_notifications: a pending notification
past expires_at is marked cancelled. -/
def cleanup_expired (n : Notification) (now : ℚ) : Notification :=
  if (match n.expires_at with
      | some e => decide (e < now)
      | none => false) && decide (n.status = NotificationStatus.pending) then
    { n with status := NotificationStatus.cancelled }
  else n

/-- One orchestrator action touching a single notification row: a dispatch
attempt by send_notification, the retry reset, or the expiry cleanup. -/
inductive OrchestratorEvent
  | dispatch (now : ℚ) (outcome : ChannelOutcome)
  | retry (now : ℚ)
  | cleanup (now : ℚ)

/-- Apply one orchestrator event to a notification row. -/
def apply_event (n : Notification) : OrchestratorEvent → Notification
  | OrchestratorEvent.dispatch now outcome => (send_notification n now outcome).1
  | OrchestratorEvent.retry now => retry_reset n now
  | OrchestratorEvent.cleanup now => cleanup_expired n now

/-- Run a sequence of orchestrator events on a notification row. -/
def run_events (n : Notification) : List OrchestratorEvent → Notification
  | [] => n
  | e :: es => run_events (apply_event n e) es

/-- Invariant preserved by every orchestrator event: the retry counter is
bounded by max_retries, and a pending row always has retries left. -/
def RetryInv (n : Notification) : Prop :=
  n.retry_count ≤ n.max_retries ∧
  (n.status = NotificationStatus.pending → n.retry_count < n.max_retries)

/-! ## Health record model (app/models/health_record.py) -/

/-- HealthRecord row: the vitals snapshot plus the anomaly flag.  Every
vital column is nullable. -/
structure HealthRecord where
  systolic_bp : Option ℚ
  diastolic_bp : Option ℚ
  heart_rate : Option ℚ
  temperature : Option ℚ
  respiratory_rate : Option ℚ
  oxygen_saturation : Option ℚ
  blood_sugar : Option ℚ
  anomaly_detected : Bool
deriving DecidableEq, Repr

/-- HealthRecord.is_critical: each condition first tests the column by
Python truthiness (so None and 0 are both skipped) and only then compares
against the critical band. -/
def is_critical (r : HealthRecord) : Bool :=
  (truthy r.systolic_bp &&
    (decide (val r.systolic_bp > 180) || decide (val r.systolic_bp < 90))) ||
  (truthy r.diastolic_bp &&
    (decide (val r.diastolic_bp > 120) || decide (val r.diastolic_bp < 60))) ||
  (truthy r.heart_rate &&
    (decide (val r.heart_rate > 120) || decide (val r.heart_rate < 50))) ||
  (truthy r.temperature &&
    (decide (val r.temperature > 103) || decide (val r.temperature < 95))) ||
  (truthy r.oxygen_saturation && decide (val r.oxygen_saturation < 90)) ||
  (truthy r.blood_sugar &&
    (decide (val r.blood_sugar > 400) || decide (val r.blood_sugar < 70)))

/-- HealthRecord.blood_pressure: formatted reading, present only when both
components are truthy. -/
def blood_pressure (r : HealthRecord) : Option String :=
  if truthy r.systolic_bp && truthy r.diastolic_bp then
    some (toString (val r.systolic_bp) ++ "/" ++ toString (val r.diastolic_bp))
  else none

/-- HealthRecord.vital_signs_summary: dictionary of the truthy vitals,
modelled as an association list in insertion order. -/
def vital_signs_summary (r : HealthRecord) : List (String × String) :=
  (match blood_pressure r with
   | some bp => [("blood_pressure", bp)]
   | none => []) ++
  (if truthy r.heart_rate then
    [("heart_rate", toString (val r.heart_rate) ++ " bpm")] else []) ++
  (if truthy r.temperature then
    [("temperature", toString (val r.temperature) ++ " F")] else []) ++
  (if truthy r.oxygen_saturation then
    [("oxygen_saturation", toString (val r.oxygen_saturation) ++ "%")] else []) ++
  (if truthy r.blood_sugar then
    [("blood_sugar", toString (val r.blood_sugar) ++ " mg/dL")] else [])

/-- One alert produced by the health-alert evaluator: the dictionary
literal built inside check_health_alerts. -/
structure Alert where
  type : String
  message : String
  priority : String
deriving DecidableEq, Repr

/-- The alert-building section of check_health_alerts, per record: the
composite is-critical rule, then blood pressure (requires both components
truthy), heart rate, oxygen saturation and blood sugar, each guarded by
truthiness of its column. -/
def evaluate_alerts (r : HealthRecord) : List Alert :=
  (if is_critical r then
    [{ type := "critical_vitals"
       message := "Critical vital signs detected: " ++ toString (vital_signs_summary r)
       priority := "critical" }]
  else []) ++
  (if truthy r.systolic_bp && truthy r.diastolic_bp then
    (if decide (val r.systolic_bp > 180) || decide (val r.diastolic_bp > 120) then
      [{ type := "hypertensive_crisis"
         message := "Hypertensive crisis detected: " ++ toString (val r.systolic_bp)
           ++ "/" ++ toString (val r.diastolic_bp) ++ " mmHg"
         priority := "critical" }]
    else if decide (val r.systolic_bp > 160) || decide (val r.diastolic_bp > 100) then
      [{ type := "severe_hypertension"
         message := "Severe hypertension: " ++ toString (val r.systolic_bp)
           ++ "/" ++ toString (val r.diastolic_bp) ++ " mmHg"
         priority := "high" }]
    else [])
  else []) ++
  (if truthy r.heart_rate then
    (if decide (val r.heart_rate > 120) then
      [{ type := "tachycardia"
         message := "Elevated heart rate: " ++ toString (val r.heart_rate) ++ " bpm"
         priority := "high" }]
    else if decide (val r.heart_rate < 50) then
      [{ type := "bradycardia"
         message := "Low heart rate: " ++ toString (val r.heart_rate) ++ " bpm"
         priority := "high" }]
    else [])
  else []) ++
  (if truthy r.oxygen_saturation && decide (val r.oxygen_saturation < 90) then
    [{ type := "hypoxemia"
       message := "Low oxygen saturation: " ++ toString (val r.oxygen_saturation) ++ "%"
       priority := "critical" }]
  else []) ++
  (if truthy r.blood_sugar then
    (if decide (val r.blood_sugar > 400) then
      [{ type := "severe_hyperglycemia"
         message := "Severe high blood sugar: " ++ toString (val r.blood_sugar) ++ " mg/dL"
         priority := "critical" }]
    else if decide (val r.blood_sugar < 70) then
      [{ type := "hypoglycemia"
         message := "Low blood sugar: " ++ toString (val r.blood_sugar) ++ " mg/dL"
         priority := "high" }]
    else [])
  else [])

/-- getattr(NotificationPriority, s.upper()) for the strings the evaluator
produces; other strings would raise in Python and are mapped to the column
default medium here (unreachable from evaluate_alerts). -/
def notification_priority_of (s : String) : NotificationPriority :=
  if s = "critical" then NotificationPriority.critical
  else if s = "high" then NotificationPriority.high
  else if s = "urgent" then NotificationPriority.urgent
  else if s = "low" then NotificationPriority.low
  else NotificationPriority.medium

/-- The patient context check_health_alerts reads: ids, the display name of
the linked user, and the optional primary physician (by user id). -/
structure Patient where
  id : ℤ
  user_id : ℤ
  full_name : String
  primary_physician : Option ℤ
deriving DecidableEq, Repr

/-- Notification.create_health_alert class method: a fresh row whose status
and channel come from the column defaults (pending, in_app), scheduled for
now. -/
def create_health_alert (user_id : ℤ) (patient_id : ℤ) (alert_message : String)
    (priority : NotificationPriority) (now : ℚ) : Notification :=
  { user_id := user_id
    patient_id := some patient_id
    title := "Health Alert"
    message := alert_message
    notification_type := NotificationType.health_alert
    priority := priority
    channel := NotificationChannel.in_app
    status := NotificationStatus.pending
    scheduled_for := some now
    expires_at := none
    sent_at := none
    delivered_at := none
    read_at := none
    failed_at := none
    failure_reason := none
    retry_count := 0
    max_retries := 3
    next_retry_at := none
    is_read := false
    action_text := some "View Details" }

/-- The notification-creation section of check_health_alerts for one alert:
one health-alert notification to the patient, and, when a primary physician
is assigned, a second one to the physician whose message carries the
patient name in front. -/
def alert_notifications (p : Patient) (a : Alert) (now : ℚ) : List Notification :=
  [create_health_alert p.user_id p.id a.message
    (notification_priority_of a.priority) now] ++
  (match p.primary_physician with
   | some physician_user_id =>
      [create_health_alert physician_user_id p.id
        ("Patient " ++ p.full_name ++ ": " ++ a.message)
        (notification_priority_of a.priority) now]
   | none => [])

/-- check_health_alerts restricted to one record: the task query only
selects records with anomaly_detected == False, so an already-processed
record is untouched and yields no notifications; otherwise the alerts are
evaluated, each alert seeds its notifications, and the record is marked
with anomaly_detected = (len(alerts) > 0). -/
def process_health_record (p : Patient) (r : HealthRecord) (now : ℚ) :
    List Notification × HealthRecord :=
  if r.anomaly_detected then ([], r)
  else
    let alerts := evaluate_alerts r
    ((alerts.map (fun a => alert_notifications p a now)).flatten,
     { r with anomaly_detected := decide (alerts.length > 0) })

/-! ## Medication model (app/models/medication.py) -/

/-- MedicationStatus enum. -/
inductive MedicationStatus
  | active
  | inactive
  | discontinued
  | completed
  | on_hold
deriving DecidableEq, Repr

/-- FrequencyType enum. -/
inductive FrequencyType
  | once_daily
  | twice_daily
  | three_times_daily
  | four_times_daily
  | as_needed
  | weekly
  | monthly
  | custom
deriving DecidableEq, Repr

/-- Medication row: the columns the dosing model reads or writes.  Numeric
times are in days. -/
structure Medication where
  status : MedicationStatus
  frequency : FrequencyType
  dosage_amount : Option ℚ
  quantity_remaining : Option ℚ
  refills_remaining : ℤ
  last_refill_date : Option ℚ
  next_refill_due : Option ℚ
  start_date : Option ℚ
  adherence_score : Option ℚ
  missed_doses : ℕ
  last_taken : Option ℚ
  notes : Option String
  discontinued_at : Option ℚ
deriving DecidableEq, Repr

/-- The frequency_map in get_daily_consumption, doses per day. -/
def frequency_multiplier : FrequencyType → ℚ
  | FrequencyType.once_daily => 1
  | FrequencyType.twice_daily => 2
  | FrequencyType.three_times_daily => 3
  | FrequencyType.four_times_daily => 4
  | FrequencyType.weekly => 1 / 7
  | FrequencyType.monthly => 1 / 30
  | FrequencyType.as_needed => 1 / 2
  | FrequencyType.custom => 1

/-- Python (self.dosage_amount or 1): the dose amount with None and 0
replaced by 1. -/
def per_dose_amount (m : Medication) : ℚ :=
  match m.dosage_amount with
  | some d => if d = 0 then 1 else d
  | none => 1

/-- Medication.get_daily_consumption: (dosage_amount or 1) times the
frequency multiplier. -/
def get_daily_consumption (m : Medication) : ℚ :=
  per_dose_amount m * frequency_multiplier m.frequency

/-- Medication.days_supply_remaining: int(quantity_remaining /
daily_consumption) when both supply columns are truthy and the consumption
is positive, else 0. -/
def days_supply_remaining (m : Medication) : ℤ :=
  if truthy m.quantity_remaining && truthy m.dosage_amount then
    (let dc := get_daily_consumption m
     if dc > 0 then py_int (val m.quantity_remaining / dc) else 0)
  else 0

/-- Medication.calculate_next_refill_date: when both supply columns are
truthy and more than 7 days of supply remain, set next_refill_due to now
plus (days remaining - 7) days; otherwise leave the column untouched. -/
def calculate_next_refill_date (m : Medication) (now : ℚ) : Medication :=
  if truthy m.quantity_remaining && truthy m.dosage_amount then
    (let days_remaining := days_supply_remaining m
     if days_remaining > 7 then
       { m with next_refill_due := some (now + ((days_remaining - 7 : ℤ) : ℚ)) }
     else m)
  else m

/-- Medication.record_dose_taken: stamp last_taken, subtract the per-dose
amount from quantity_remaining when that column is truthy (no floor), then
recompute the next refill date. -/
def record_dose_taken (m : Medication) (now : ℚ) : Medication :=
  let m1 := { m with last_taken := some now }
  let m2 :=
    if truthy m1.quantity_remaining then
      { m1 with quantity_remaining := some (val m1.quantity_remaining - per_dose_amount m1) }
    else m1
  calculate_next_refill_date m2 now

/-- Python round() at two decimals: round half to even on the scaled
value. -/
def round_half_even (q : ℚ) : ℤ :=
  let f := ⌊q⌋
  if q - f < 1 / 2 then f
  else if q - f > 1 / 2 then f + 1
  else if Even f then f else f + 1

/-- round(x, 2) on a rational. -/
def round2 (q : ℚ) : ℚ := (round_half_even (q * 100) : ℚ) / 100

/-- Medication.update_adherence_score: when a start date exists, full days
on medication are positive and expected doses are positive, store
max(0, (expected - missed) / expected * 100) rounded to two decimals;
otherwise leave the score unchanged. -/
def update_adherence_score (m : Medication) (now : ℚ) : Medication :=
  match m.start_date with
  | none => m
  | some sd =>
      let days_on_medication : ℤ := ⌊now - sd⌋
      if days_on_medication > 0 then
        (let expected_doses : ℚ := (days_on_medication : ℚ) * get_daily_consumption m
         if expected_doses > 0 then
           { m with adherence_score := some (round2 (max 0 ((expected_doses - (m.missed_doses : ℚ)) / expected_doses * 100))) }
         else m)
      else m

/-- Medication.record_missed_dose: bump the counter, then recompute the
adherence score. -/
def record_missed_dose (m : Medication) (now : ℚ) : Medication :=
  update_adherence_score { m with missed_doses := m.missed_doses + 1 } now

/-- Medication.add_refill: add the quantity to (quantity_remaining or 0),
overwrite refills_remaining, stamp last_refill_date, recompute the next
refill date. -/
def add_refill (m : Medication) (quantity : ℚ) (refills : ℤ) (now : ℚ) :
    Medication :=
  calculate_next_refill_date
    { m with
      quantity_remaining := some (val m.quantity_remaining + quantity)
      refills_remaining := refills
      last_refill_date := some now } now

/-- Medication.discontinue(reason): set status discontinued, stamp
discontinued_at, and, when a non-empty reason is given, append it to the
notes.  No other field, and no guard on the previous status. -/
def discontinue (m : Medication) (reason : Option String) (now : ℚ) :
    Medication :=
  let m1 := { m with
    status := MedicationStatus.discontinued
    discontinued_at := some now }
  match reason with
  | some rsn =>
      if rsn = "" then m1
      else { m1 with notes := some (((m1.notes.getD "") ++ "\nDiscontinued: " ++ rsn).trim) }
  | none => m1

/-! ## Sample rows used by concrete witnesses and counterexamples -/

/-- A fresh pending email notification with the column defaults for the
retry bookkeeping (retry_count 0, max_retries 3) and no expiry. -/
def base_notification : Notification :=
  { user_id := 1
    patient_id := none
    title := "Medication Reminder"
    message := "It is time to take your medication"
    notification_type := NotificationType.medication_reminder
    priority := NotificationPriority.high
    channel := NotificationChannel.email
    status := NotificationStatus.pending
    scheduled_for := none
    expires_at := none
    sent_at := none
    delivered_at := none
    read_at := none
    failed_at := none
    failure_reason := none
    retry_count := 0
    max_retries := 3
    next_retry_at := none
    is_read := false
    action_text := none }

/-- A health record with every vital column absent. -/
def base_record : HealthRecord :=
  { systolic_bp := none
    diastolic_bp := none
    heart_rate := none
    temperature := none
    respiratory_rate := none
    oxygen_saturation := none
    blood_sugar := none
    anomaly_detected := false }

/-- An active twice-daily medication, dose amount 1, 10 units remaining:
daily consumption 2 per day, 5 days of supply. -/
def base_medication : Medication :=
  { status := MedicationStatus.active
    frequency := FrequencyType.twice_daily
    dosage_amount := some 1
    quantity_remaining := some 10
    refills_remaining := 0
    last_refill_date := none
    next_refill_due := none
    start_date := some 0
    adherence_score := none
    missed_doses := 0
    last_taken := none
    notes := none
    discontinued_at := none }

/-! ## Helper lemmas on the notification lifecycle -/

theorem mark_as_failed_status (n : Notification) (reason : Option String)
    (now : ℚ) : (mark_as_failed n reason now).status = NotificationStatus.failed := by
  simp only [mark_as_failed]
  split <;> rfl

theorem mark_as_failed_retry_count (n : Notification) (reason : Option String)
    (now : ℚ) : (mark_as_failed n reason now).retry_count = n.retry_count + 1 := by
  simp only [mark_as_failed]
  split <;> rfl

theorem mark_as_failed_max_retries (n : Notification) (reason : Option String)
    (now : ℚ) : (mark_as_failed n reason now).max_retries = n.max_retries := by
  simp only [mark_as_failed]
  split <;> rfl

/-- Case analysis of one dispatch attempt: the row is untouched (skipped),
cancelled on expiry, marked sent, or marked failed; the last three only
from a pending row. -/
theorem send_notification_result (n : Notification) (now : ℚ)
    (o : ChannelOutcome) :
    (send_notification n now o).1 = n ∨
    (n.status = NotificationStatus.pending ∧
      (send_notification n now o).1 = { n with status := NotificationStatus.cancelled }) ∨
    (n.status = NotificationStatus.pending ∧
      (send_notification n now o).1 =
        { n with status := NotificationStatus.sent, sent_at := some now }) ∨
    (n.status = NotificationStatus.pending ∧
      (send_notification n now o).1 = mark_as_failed n (channel_send n o).2 now) := by
  by_cases hp : n.status = NotificationStatus.pending
  · by_cases he : is_expired n now
    · right; left
      exact ⟨hp, by simp [send_notification, hp, he]⟩
    · by_cases hc : (channel_send n o).1
      · right; right; left
        exact ⟨hp, by simp [send_notification, hp, he, hc]⟩
      · right; right; right
        exact ⟨hp, by simp [send_notification, hp, he, hc]⟩
  · left
    simp [send_notification, hp]

/-- A skipped dispatch attempt: everything except a pending row is left
untouched. -/
theorem send_notification_skipped (n : Notification) (now : ℚ)
    (o : ChannelOutcome) (h : n.status ≠ NotificationStatus.pending) :
    send_notification n now o = (n, DispatchStatus.skipped) := by
  simp [send_notification, h]

/-- A retry reset either leaves the row untouched or resets an eligible
failed row (with retries left and not expired) to pending. -/
theorem retry_reset_result (n : Notification) (now : ℚ) :
    retry_reset n now = n ∨
    (n.status = NotificationStatus.failed ∧ n.retry_count < n.max_retries ∧
      retry_reset n now =
        { n with status := NotificationStatus.pending, next_retry_at := none }) := by
  by_cases h : retry_eligible n now
  · right
    have h2 := h
    simp only [retry_eligible, Bool.and_eq_true, decide_eq_true_eq] at h2
    exact ⟨h2.1.1.1, h2.1.1.2, by simp [retry_reset, h]⟩
  · left
    simp [retry_reset, h]

/-- The cleanup task either leaves the row untouched or cancels a pending
row past its expiry. -/
theorem cleanup_expired_result (n : Notification) (now : ℚ) :
    cleanup_expired n now = n ∨
    (n.status = NotificationStatus.pending ∧
      cleanup_expired n now = { n with status := NotificationStatus.cancelled }) := by
  simp only [cleanup_expired]
  split
  · next h =>
      simp only [Bool.and_eq_true, decide_eq_true_eq] at h
      exact Or.inr ⟨h.2, rfl⟩
  · exact Or.inl rfl

/-- Every orchestrator event preserves the retry invariant. -/
theorem retryInv_apply_event (n : Notification) (e : OrchestratorEvent)
    (h : RetryInv n) : RetryInv (apply_event n e) := by
  obtain ⟨h1, h2⟩ := h
  cases e with
  | dispatch now o =>
      rcases send_notification_result n now o with hr | ⟨hp, hr⟩ | ⟨hp, hr⟩ | ⟨hp, hr⟩ <;>
        simp only [apply_event, hr]
      · exact ⟨h1, h2⟩
      · exact ⟨h1, by intro hcon; cases hcon⟩
      · exact ⟨h1, by intro hcon; cases hcon⟩
      · refine ⟨?_, ?_⟩
        · rw [mark_as_failed_retry_count, mark_as_failed_max_retries]
          exact h2 hp
        · intro hcon
          rw [mark_as_failed_status] at hcon
          cases hcon
  | retry now =>
      rcases retry_reset_result n now with hr | ⟨hs, hlt, hr⟩ <;> simp only [apply_event, hr]
      · exact ⟨h1, h2⟩
      · exact ⟨le_of_lt hlt, fun _ => hlt⟩
  | cleanup now =>
      rcases cleanup_expired_result n now with hr | ⟨hs, hr⟩ <;> simp only [apply_event, hr]
      · exact ⟨h1, h2⟩
      · exact ⟨h1, by intro hcon; cases hcon⟩

/-- The retry invariant is preserved by any event sequence. -/
theorem retryInv_run_events (es : List OrchestratorEvent) (n : Notification)
    (h : RetryInv n) : RetryInv (run_events n es) := by
  induction es generalizing n with
  | nil => exact h
  | cons e es ih => exact ih _ (retryInv_apply_event n e h)

/-- A failed row with its retries exhausted is a fixed point of every
orchestrator event. -/
theorem exhausted_fixed (n : Notification) (e : OrchestratorEvent)
    (hs : n.status = NotificationStatus.failed)
    (hc : n.retry_count = n.max_retries) : apply_event n e = n := by
  cases e with
  | dispatch now o =>
      have : n.status ≠ NotificationStatus.pending := by rw [hs]; intro hcon; cases hcon
      simp [apply_event, send_notification_skipped n now o this]
  | retry now =>
      have : retry_eligible n now = false := by
        simp only [retry_eligible, Bool.and_eq_true, decide_eq_true_eq,
          Bool.not_eq_true] at *
        by_contra hcon
        rw [Bool.not_eq_false, Bool.and_eq_true, Bool.and_eq_true,
          Bool.and_eq_true, decide_eq_true_eq, decide_eq_true_eq] at hcon
        omega
      simp [apply_event, retry_reset, this]
  | cleanup now =>
      have : (decide (n.status = NotificationStatus.pending)) = false := by
        simp [hs]
      simp [apply_event, cleanup_expired, this]

/-! ## Claim C2 -/

/-- C2: a dispatch attempt on a pending notification whose expires_at has
passed forces status cancelled and returns expired, whatever the channel
outcome would have been; a dispatch attempt never moves an expired row into
sent or delivered, and the retry task never resets an expired row. -/
theorem C2_expiration_precedence :
    (∀ (n : Notification) (now e : ℚ) (o : ChannelOutcome),
      n.status = NotificationStatus.pending → n.expires_at = some e → e < now →
      send_notification n now o =
        ({ n with status := NotificationStatus.cancelled }, DispatchStatus.expired)) ∧
    (∀ (n : Notification) (now : ℚ) (o : ChannelOutcome),
      is_expired n now = true →
      ((send_notification n now o).1.status = NotificationStatus.sent →
        n.status = NotificationStatus.sent) ∧
      ((send_notification n now o).1.status = NotificationStatus.delivered →
        n.status = NotificationStatus.delivered)) ∧
    (∀ (n : Notification) (now e : ℚ), n.expires_at = some e → e < now →
      retry_reset n now = n) := by
  refine ⟨?_, ?_, ?_⟩
  · intro n now e o hp hx hlt
    have he : is_expired n now = true := by
      simp [is_expired, hx]
      exact hlt
    simp [send_notification, hp, he]
  · intro n now o he
    by_cases hp : n.status = NotificationStatus.pending
    · have : send_notification n now o =
          ({ n with status := NotificationStatus.cancelled }, DispatchStatus.expired) := by
        simp [send_notification, hp, he]
      rw [this]
      refine ⟨fun hcon => ?_, fun hcon => ?_⟩ <;> simp at hcon
    · rw [send_notification_skipped n now o hp]
      exact ⟨fun h => h, fun h => h⟩
  · intro n now e hx hlt
    have : retry_eligible n now = false := by
      simp only [retry_eligible, hx, Bool.and_eq_true, decide_eq_true_eq]
      by_contra hcon
      rw [Bool.not_eq_false, Bool.and_eq_true, Bool.and_eq_true, Bool.and_eq_true,
        decide_eq_true_eq, decide_eq_true_eq] at hcon
      have := hcon.2
      rw [decide_eq_true_eq] at this
      linarith
    simp [retry_reset, this]

/-- Witness for C2 at a concrete expired pending notification. -/
theorem C2_expiration_precedence_witness :
    send_notification { base_notification with expires_at := some 5 } 10
        ChannelOutcome.success =
      ({ { base_notification with expires_at := some 5 } with
          status := NotificationStatus.cancelled }, DispatchStatus.expired) :=
  C2_expiration_precedence.1 { base_notification with expires_at := some 5 } 10 5
    ChannelOutcome.success rfl rfl (by norm_num)

/-! ## Claim C3 -/

/-- C3: along any sequence of orchestrator events (dispatch attempts, retry
resets, expiry cleanups) starting from a row whose retry counter is within
bounds and which, when pending, has retries left (as a fresh row does),
retry_count never exceeds max_retries; and a failed row whose retries are
exhausted is left in terminal failed state by every further event
sequence. -/
theorem C3_retry_count_bounded :
    (∀ (es : List OrchestratorEvent) (n : Notification),
      n.retry_count ≤ n.max_retries →
      (n.status = NotificationStatus.pending → n.retry_count < n.max_retries) →
      (run_events n es).retry_count ≤ (run_events n es).max_retries) ∧
    (∀ (es : List OrchestratorEvent) (n : Notification),
      n.status = NotificationStatus.failed → n.retry_count = n.max_retries →
      run_events n es = n) := by
  constructor
  · intro es n h1 h2
    exact (retryInv_run_events es n ⟨h1, h2⟩).1
  · intro es n hs hc
    induction es with
    | nil => rfl
    | cons e es ih =>
        simp only [run_events, exhausted_fixed n e hs hc]
        exact ih

/-- A pending email row failing three dispatch attempts with retry resets
in between. -/
def c3_events : List OrchestratorEvent :=
  [OrchestratorEvent.dispatch 0 (ChannelOutcome.failure "smtp down"),
   OrchestratorEvent.retry 700,
   OrchestratorEvent.dispatch 700 (ChannelOutcome.failure "smtp down"),
   OrchestratorEvent.retry 2000,
   OrchestratorEvent.dispatch 2000 (ChannelOutcome.failure "smtp down"),
   OrchestratorEvent.retry 9000,
   OrchestratorEvent.dispatch 9000 (ChannelOutcome.failure "smtp down")]

/-- A failed row whose retries are exhausted. -/
def exhausted_notification : Notification :=
  { base_notification with status := NotificationStatus.failed, retry_count := 3 }

/-- Witness for C3: a fresh pending row dispatched, failed and retried
repeatedly stays within the bound, and an exhausted failed row is fixed. -/
theorem C3_retry_count_bounded_witness :
    (run_events base_notification c3_events).retry_count ≤
      (run_events base_notification c3_events).max_retries ∧
    run_events exhausted_notification
        [OrchestratorEvent.retry 9000,
         OrchestratorEvent.dispatch 9000 ChannelOutcome.success] =
      exhausted_notification :=
  ⟨C3_retry_count_bounded.1 c3_events base_notification (by decide)
      (fun _ => by decide),
   C3_retry_count_bounded.2 _ exhausted_notification rfl rfl⟩

/-! ## Claim C4 -/

/-- C4 counterexample: the first mark_as_failed call on a fresh
notification (retry_count 0) schedules the retry 600 seconds out, because
the code increments retry_count before computing min(300 * 2 ** retry_count,
3600); the claimed first delay of 300 seconds does not occur. -/
theorem C4_first_delay_is_600 :
    (mark_as_failed base_notification (some "transport error") 0).next_retry_at =
      some 600 ∧ (600 : ℚ) ≠ 0 + 300 := by
  refine ⟨?_, by norm_num⟩
  norm_num [mark_as_failed, can_retry, is_expired, retry_delay, base_notification]

/-- C4 amended: when the incremented counter still has retries left and the
row is not expired, mark_as_failed schedules next_retry_at = now +
min(300 * 2 ** (retry_count + 1), 3600) seconds, retry_count being the
pre-call value; the resulting delay sequence is 600, 1200, 2400, 3600,
3600, ... - non-decreasing and capped at 3600 seconds, with the first retry
delayed 600 seconds. -/
theorem C4_backoff_schedule :
    (∀ (n : Notification) (reason : Option String) (now : ℚ),
      n.retry_count + 1 < n.max_retries → is_expired n now = false →
      (mark_as_failed n reason now).next_retry_at =
        some (now + (retry_delay (n.retry_count + 1) : ℚ))) ∧
    (∀ k, retry_delay k ≤ retry_delay (k + 1)) ∧
    (∀ k, retry_delay k ≤ 3600) ∧
    retry_delay 1 = 600 ∧ retry_delay 2 = 1200 ∧ retry_delay 3 = 2400 ∧
    retry_delay 4 = 3600 ∧ retry_delay 5 = 3600 := by
  refine ⟨?_, ?_, ?_, rfl, rfl, rfl, rfl, rfl⟩
  · intro n reason now hlt hexp
    have hcr : can_retry { n with
        status := NotificationStatus.failed
        failed_at := some now
        failure_reason := reason
        retry_count := n.retry_count + 1 } now = true := by
      simp only [can_retry, is_expired] at *
      simp [hlt]
      cases hx : n.expires_at with
      | none => simp
      | some e => rw [hx] at hexp; simpa using hexp
    simp only [mark_as_failed]
    rw [if_pos hcr]
  · intro k
    exact min_le_min (Nat.mul_le_mul_left 300
      (Nat.pow_le_pow_right (by norm_num) (Nat.le_succ k))) le_rfl
  · intro k
    exact min_le_right _ _

/-- Witness for C4 at a fresh notification: the first retry is scheduled
600 seconds after the failure. -/
theorem C4_backoff_schedule_witness :
    (mark_as_failed base_notification none 0).next_retry_at =
      some (0 + (retry_delay (base_notification.retry_count + 1) : ℚ)) :=
  C4_backoff_schedule.1 base_notification none 0 (by decide) rfl

/-! ## Claim C5 -/

/-- C5 counterexample: mark_as_delivered carries no precondition; called on
a pending notification it performs the pending-to-delivered transition
instead of rejecting it. -/
theorem C5_mark_delivered_not_rejected :
    base_notification.status = NotificationStatus.pending ∧
    (mark_as_delivered base_notification 7).status =
      NotificationStatus.delivered ∧
    mark_as_delivered base_notification 7 =
      { base_notification with status := NotificationStatus.delivered, delivered_at := some 7 } :=
  ⟨rfl, rfl, rfl⟩

/-- C5 amended: the dispatch, retry and cleanup tasks only realize the
transitions pending to sent, failed or cancelled, and failed to pending on
retry; but the model-level transition helpers are unguarded:
mark_as_delivered sets status delivered from any state, in particular
directly from pending, performing the call rather than rejecting it. -/
theorem C5_transition_structure :
    (∀ (n : Notification) (now : ℚ) (o : ChannelOutcome),
      (send_notification n now o).1.status ≠ n.status →
      n.status = NotificationStatus.pending ∧
      ((send_notification n now o).1.status = NotificationStatus.sent ∨
       (send_notification n now o).1.status = NotificationStatus.failed ∨
       (send_notification n now o).1.status = NotificationStatus.cancelled)) ∧
    (∀ (n : Notification) (now : ℚ),
      (retry_reset n now).status ≠ n.status →
      n.status = NotificationStatus.failed ∧
      (retry_reset n now).status = NotificationStatus.pending) ∧
    (∀ (n : Notification) (now : ℚ),
      (cleanup_expired n now).status ≠ n.status →
      n.status = NotificationStatus.pending ∧
      (cleanup_expired n now).status = NotificationStatus.cancelled) ∧
    (∀ (n : Notification) (now : ℚ),
      (mark_as_delivered n now).status = NotificationStatus.delivered) := by
  refine ⟨?_, ?_, ?_, fun n now => rfl⟩
  · intro n now o hne
    rcases send_notification_result n now o with hr | ⟨hp, hr⟩ | ⟨hp, hr⟩ | ⟨hp, hr⟩
    · rw [hr] at hne; exact absurd rfl hne
    · exact ⟨hp, Or.inr (Or.inr (by rw [hr]))⟩
    · exact ⟨hp, Or.inl (by rw [hr])⟩
    · exact ⟨hp, Or.inr (Or.inl (by rw [hr, mark_as_failed_status]))⟩
  · intro n now hne
    rcases retry_reset_result n now with hr | ⟨hs, _, hr⟩
    · rw [hr] at hne; exact absurd rfl hne
    · exact ⟨hs, by rw [hr]⟩
  · intro n now hne
    rcases cleanup_expired_result n now with hr | ⟨hs, hr⟩
    · rw [hr] at hne; exact absurd rfl hne
    · exact ⟨hs, by rw [hr]⟩

/-- Witness for C5 at concrete rows: a failing dispatch moves a pending row
only into a legal successor state, and mark_as_delivered on the same
pending row yields delivered. -/
theorem C5_transition_structure_witness :
    (base_notification.status = NotificationStatus.pending ∧
      ((send_notification base_notification 0 (ChannelOutcome.failure "x")).1.status =
          NotificationStatus.sent ∨
       (send_notification base_notification 0 (ChannelOutcome.failure "x")).1.status =
          NotificationStatus.failed ∨
       (send_notification base_notification 0 (ChannelOutcome.failure "x")).1.status =
          NotificationStatus.cancelled)) ∧
    (mark_as_delivered base_notification 7).status = NotificationStatus.delivered :=
  ⟨C5_transition_structure.1 base_notification 0 (ChannelOutcome.failure "x")
      (by decide),
   C5_transition_structure.2.2.2 base_notification 7⟩

/-! ## Helper lemmas on the medication model -/

/-- Recomputing the next refill date touches only next_refill_due. -/
theorem calculate_next_refill_date_fields (m : Medication) (now : ℚ) :
    (calculate_next_refill_date m now).status = m.status ∧
    (calculate_next_refill_date m now).last_taken = m.last_taken ∧
    (calculate_next_refill_date m now).quantity_remaining = m.quantity_remaining ∧
    (calculate_next_refill_date m now).dosage_amount = m.dosage_amount ∧
    (calculate_next_refill_date m now).frequency = m.frequency ∧
    (calculate_next_refill_date m now).missed_doses = m.missed_doses ∧
    (calculate_next_refill_date m now).adherence_score = m.adherence_score := by
  unfold calculate_next_refill_date
  split
  · dsimp only
    split
    · exact ⟨rfl, rfl, rfl, rfl, rfl, rfl, rfl⟩
    · exact ⟨rfl, rfl, rfl, rfl, rfl, rfl, rfl⟩
  · exact ⟨rfl, rfl, rfl, rfl, rfl, rfl, rfl⟩

/-- A supply of more than 7 days forces the truthiness guard of
days_supply_remaining to hold. -/
theorem days_supply_pos_guard (m : Medication)
    (h : 7 < days_supply_remaining m) :
    (truthy m.quantity_remaining && truthy m.dosage_amount) = true := by
  by_contra hng
  rw [Bool.not_eq_true] at hng
  rw [days_supply_remaining, hng] at h
  simp at h

/-! ## Claim C6 -/

/-- C6 counterexample: record_dose_taken applies no floor; with 1 unit
remaining and a per-dose amount of 2, the remaining quantity becomes
negative. -/
theorem C6_quantity_can_go_negative :
    (record_dose_taken
        { base_medication with quantity_remaining := some 1, dosage_amount := some 2 }
        5).quantity_remaining = some (-1) ∧ (-1 : ℚ) < 0 := by
  constructor
  · norm_num [record_dose_taken, calculate_next_refill_date, days_supply_remaining,
      get_daily_consumption, per_dose_amount, frequency_multiplier, truthy, val,
      py_int, base_medication]
    split <;> rfl
  · norm_num

/-- C6 amended: record_dose_taken stamps last_taken with now, leaves
quantity_remaining untouched when that column is falsy (absent or zero),
subtracts the per-dose amount without flooring when it is truthy (so the
quantity can go negative when the per-dose amount exceeds the remainder),
and then recomputes the next refill date. -/
theorem C6_record_dose_taken_spec :
    ∀ (m : Medication) (now : ℚ),
      (record_dose_taken m now).last_taken = some now ∧
      (truthy m.quantity_remaining = false →
        (record_dose_taken m now).quantity_remaining = m.quantity_remaining) ∧
      (∀ q : ℚ, m.quantity_remaining = some q → q ≠ 0 →
        (record_dose_taken m now).quantity_remaining = some (q - per_dose_amount m)) ∧
      record_dose_taken m now =
        calculate_next_refill_date
          (if truthy m.quantity_remaining then
            { m with
              last_taken := some now
              quantity_remaining := some (val m.quantity_remaining - per_dose_amount m) }
          else { m with last_taken := some now }) now := by
  intro m now
  refine ⟨?_, ?_, ?_, ?_⟩
  · rw [record_dose_taken]
    by_cases h : truthy m.quantity_remaining <;>
      simp only [h, if_true, if_false, ite_true, ite_false] <;>
      exact (calculate_next_refill_date_fields _ now).2.1
  · intro h
    rw [record_dose_taken]
    simp only [h, Bool.false_eq_true, if_false, ite_false]
    exact (calculate_next_refill_date_fields _ now).2.2.1
  · intro q hq hne
    have ht : truthy m.quantity_remaining = true := by
      rw [hq, truthy]
      simpa using hne
    rw [record_dose_taken]
    simp only [ht, if_true, ite_true]
    rw [(calculate_next_refill_date_fields _ now).2.2.1]
    simp [val, hq, per_dose_amount]
  · rw [record_dose_taken]
    by_cases h : truthy m.quantity_remaining
    · simp only [h, ite_true]
      rfl
    · have hf : truthy m.quantity_remaining = false := by rwa [Bool.not_eq_true] at h
      simp only [hf, Bool.false_eq_true, ite_false]

/-- Witness for C6 at two concrete medications: one with a truthy quantity
(10 units, dose 1) and one with the quantity column absent. -/
theorem C6_record_dose_taken_spec_witness :
    (record_dose_taken base_medication 5).last_taken = some 5 ∧
    (record_dose_taken base_medication 5).quantity_remaining =
      some (10 - per_dose_amount base_medication) ∧
    (record_dose_taken { base_medication with quantity_remaining := none }
        5).quantity_remaining = none :=
  ⟨(C6_record_dose_taken_spec base_medication 5).1,
   (C6_record_dose_taken_spec base_medication 5).2.2.1 10 rfl (by norm_num),
   (C6_record_dose_taken_spec { base_medication with quantity_remaining := none }
      5).2.1 rfl⟩

/-! ## Claim C7 -/

/-- C7 counterexample: after discontinue, record_dose_taken and add_refill
on the discontinued medication are carried out normally (state is mutated),
not rejected with an error. -/
theorem C7_discontinued_ops_not_rejected :
    (discontinue base_medication (some "adverse reaction") 3).status =
      MedicationStatus.discontinued ∧
    (discontinue base_medication (some "adverse reaction") 3).last_taken = none ∧
    (record_dose_taken (discontinue base_medication (some "adverse reaction") 3)
        4).last_taken = some 4 ∧
    (add_refill (discontinue base_medication (some "adverse reaction") 3) 30 2
        4).quantity_remaining = some 40 := by
  refine ⟨rfl, rfl, ?_, ?_⟩
  · exact (C6_record_dose_taken_spec _ 4).1
  · rw [add_refill, (calculate_next_refill_date_fields _ 4).2.2.1]
    have hq : (discontinue base_medication (some "adverse reaction") 3).quantity_remaining =
        some 10 := rfl
    simp only [val, hq, Option.getD]
    norm_num

/-- The refill-date computation commutes with overwriting the status
column: no condition in it reads the status. -/
theorem calculate_next_refill_date_status (m : Medication) (s : MedicationStatus)
    (now : ℚ) :
    calculate_next_refill_date { m with status := s } now =
      { calculate_next_refill_date m now with status := s } := by
  rw [calculate_next_refill_date, calculate_next_refill_date]
  dsimp only
  by_cases hg : (truthy m.quantity_remaining && truthy m.dosage_amount) = true
  · rw [if_pos hg, if_pos hg]
    have hd : days_supply_remaining { m with status := s } = days_supply_remaining m := rfl
    rw [hd]
    by_cases h7 : days_supply_remaining m > 7
    · rw [if_pos h7, if_pos h7]
    · rw [if_neg h7, if_neg h7]
  · rw [if_neg hg, if_neg hg]

/-- record_dose_taken commutes with overwriting the status column. -/
theorem record_dose_taken_status (m : Medication) (s : MedicationStatus)
    (now : ℚ) :
    record_dose_taken { m with status := s } now =
      { record_dose_taken m now with status := s } := by
  rw [record_dose_taken, record_dose_taken]
  dsimp only
  by_cases h : truthy m.quantity_remaining = true
  · rw [if_pos h, if_pos h]
    exact calculate_next_refill_date_status
      { m with
        last_taken := some now
        quantity_remaining :=
          some (val m.quantity_remaining - per_dose_amount { m with last_taken := some now }) }
      s now
  · rw [if_neg h, if_neg h]
    exact calculate_next_refill_date_status { m with last_taken := some now } s now

/-- Equation lemma: with no start date the adherence recomputation is the
identity. -/
theorem update_adherence_score_none (m : Medication) (now : ℚ)
    (h : m.start_date = none) : update_adherence_score m now = m := by
  rw [update_adherence_score, h]

/-- Equation lemma for the adherence recomputation with a start date. -/
theorem update_adherence_score_some (m : Medication) (now sd : ℚ)
    (h : m.start_date = some sd) :
    update_adherence_score m now =
      (if (⌊now - sd⌋ : ℤ) > 0 then
        (if ((⌊now - sd⌋ : ℤ) : ℚ) * get_daily_consumption m > 0 then
          { m with adherence_score := some (round2 (max 0 ((((⌊now - sd⌋ : ℤ) : ℚ) * get_daily_consumption m - (m.missed_doses : ℚ)) / (((⌊now - sd⌋ : ℤ) : ℚ) * get_daily_consumption m) * 100))) }
        else m)
      else m) := by
  rw [update_adherence_score, h]

/-- The adherence recomputation commutes with overwriting the status
column. -/
theorem update_adherence_score_status (m : Medication) (s : MedicationStatus)
    (now : ℚ) :
    update_adherence_score { m with status := s } now =
      { update_adherence_score m now with status := s } := by
  rcases Option.eq_none_or_eq_some m.start_date with hsd | ⟨sd, hsd⟩
  · rw [update_adherence_score_none m now hsd,
      update_adherence_score_none { m with status := s } now hsd]
  · rw [update_adherence_score_some m now sd hsd,
      update_adherence_score_some { m with status := s } now sd hsd]
    have hg : get_daily_consumption { m with status := s } = get_daily_consumption m := rfl
    rw [hg]
    by_cases hd : (⌊now - sd⌋ : ℤ) > 0
    · rw [if_pos hd, if_pos hd]
      by_cases he : ((⌊now - sd⌋ : ℤ) : ℚ) * get_daily_consumption m > 0
      · rw [if_pos he, if_pos he]
      · rw [if_neg he, if_neg he]
    · rw [if_neg hd, if_neg hd]

/-- update_adherence_score leaves the status column untouched. -/
theorem update_adherence_score_status_eq (m : Medication) (now : ℚ) :
    (update_adherence_score m now).status = m.status := by
  rw [update_adherence_score]
  cases m.start_date with
  | none => rfl
  | some sd =>
      dsimp only
      split
      · split <;> rfl
      · rfl

/-- C7 amended: discontinue always lands in discontinued status and no
dose or refill operation ever changes the status back (the transition is
one-way across the model's operations); but operations on a non-active
medication are not rejected: record_dose_taken, record_missed_dose and
add_refill act identically whatever the status, mutating state instead of
failing. -/
theorem C7_operations_ignore_status :
    ∀ (m : Medication) (reason : Option String) (q : ℚ) (rf : ℤ) (now : ℚ)
      (s : MedicationStatus),
      (discontinue m reason now).status = MedicationStatus.discontinued ∧
      (record_dose_taken m now).status = m.status ∧
      (record_missed_dose m now).status = m.status ∧
      (add_refill m q rf now).status = m.status ∧
      record_dose_taken { m with status := s } now =
        { record_dose_taken m now with status := s } ∧
      record_missed_dose { m with status := s } now =
        { record_missed_dose m now with status := s } ∧
      add_refill { m with status := s } q rf now =
        { add_refill m q rf now with status := s } := by
  intro m reason q rf now s
  refine ⟨?_, ?_, ?_, ?_, ?_, ?_, ?_⟩
  · cases reason with
    | none => rfl
    | some rsn => by_cases h : rsn = "" <;> simp [discontinue, h]
  · rw [record_dose_taken]
    by_cases h : truthy m.quantity_remaining <;>
      simp only [h, if_true, if_false, ite_true, ite_false, Bool.false_eq_true] <;>
      exact (calculate_next_refill_date_fields _ now).1
  · rw [record_missed_dose]
    exact update_adherence_score_status_eq _ now
  · rw [add_refill]
    exact (calculate_next_refill_date_fields _ now).1
  · exact record_dose_taken_status m s now
  · rw [record_missed_dose, record_missed_dose]
    exact update_adherence_score_status { m with missed_doses := m.missed_doses + 1 } s now
  · rw [add_refill, add_refill]
    dsimp only
    exact calculate_next_refill_date_status
      { m with
        quantity_remaining := some (val m.quantity_remaining + q)
        refills_remaining := rf
        last_refill_date := some now }
      s now

/-! ## Claim C8 -/

/-- With more than 7 days of supply, the refill date is set 7 days before
exhaustion. -/
theorem calc_refill_sets (m : Medication) (now : ℚ)
    (h : 7 < days_supply_remaining m) :
    (calculate_next_refill_date m now).next_refill_due =
      some (now + ((days_supply_remaining m - 7 : ℤ) : ℚ)) := by
  have hg := days_supply_pos_guard m h
  rw [calculate_next_refill_date, if_pos hg]
  dsimp only
  rw [if_pos h]

/-- With at most 7 days of supply, the refill date column is left as it
was. -/
theorem calc_refill_unchanged (m : Medication) (now : ℚ)
    (h : days_supply_remaining m ≤ 7) :
    (calculate_next_refill_date m now).next_refill_due = m.next_refill_due := by
  rw [calculate_next_refill_date]
  by_cases hg : (truthy m.quantity_remaining && truthy m.dosage_amount) = true
  · rw [if_pos hg]
    dsimp only
    rw [if_neg (not_lt.mpr h)]
  · rw [if_neg hg]

/-- The base medication with 20 units remaining: 10 days of supply. -/
def base_medication20 : Medication :=
  { base_medication with quantity_remaining := some 20 }

/-- C8: calculate_next_refill_date sets next_refill_due = now +
(days_supply_remaining - 7) days exactly when days_supply_remaining > 7 and
otherwise leaves the column as it was (unset when it was unset); with 10
units at 2 per day (5 days) nothing is set, with 20 units (10 days) the
refill comes due in 3 days. -/
theorem C8_next_refill_rule :
    (∀ (m : Medication) (now : ℚ), 7 < days_supply_remaining m →
      (calculate_next_refill_date m now).next_refill_due =
        some (now + ((days_supply_remaining m - 7 : ℤ) : ℚ))) ∧
    (∀ (m : Medication) (now : ℚ), days_supply_remaining m ≤ 7 →
      (calculate_next_refill_date m now).next_refill_due = m.next_refill_due) ∧
    days_supply_remaining base_medication = 5 ∧
    (∀ now : ℚ, (calculate_next_refill_date base_medication now).next_refill_due = none) ∧
    days_supply_remaining base_medication20 = 10 ∧
    (∀ now : ℚ,
      (calculate_next_refill_date base_medication20 now).next_refill_due =
        some (now + 3)) := by
  have h5 : days_supply_remaining base_medication = 5 := by
    norm_num [days_supply_remaining, get_daily_consumption, per_dose_amount,
      frequency_multiplier, truthy, val, py_int, base_medication]
  have h10 : days_supply_remaining base_medication20 = 10 := by
    norm_num [days_supply_remaining, get_daily_consumption, per_dose_amount,
      frequency_multiplier, truthy, val, py_int, base_medication20, base_medication]
  refine ⟨calc_refill_sets, calc_refill_unchanged, h5, ?_, h10, ?_⟩
  · intro now
    rw [calc_refill_unchanged base_medication now (by rw [h5]; norm_num)]
    rfl
  · intro now
    rw [calc_refill_sets base_medication20 now (by rw [h10]; norm_num), h10]
    norm_num

/-- Witness for C8 at the two sample medications. -/
theorem C8_next_refill_rule_witness :
    (calculate_next_refill_date base_medication20 0).next_refill_due =
      some (0 + ((days_supply_remaining base_medication20 - 7 : ℤ) : ℚ)) ∧
    (calculate_next_refill_date base_medication 0).next_refill_due =
      base_medication.next_refill_due :=
  ⟨C8_next_refill_rule.1 base_medication20 0 (by
      norm_num [days_supply_remaining, get_daily_consumption, per_dose_amount,
        frequency_multiplier, truthy, val, py_int, base_medication20, base_medication]),
   C8_next_refill_rule.2.1 base_medication 0 (by
      norm_num [days_supply_remaining, get_daily_consumption, per_dose_amount,
        frequency_multiplier, truthy, val, py_int, base_medication])⟩

/-! ## Claim C9 -/

/-- The patient context used in concrete scenarios: patient 7, user 42,
primary physician user 99. -/
def base_patient : Patient :=
  { id := 7, user_id := 42, full_name := "Ada Smith", primary_physician := some 99 }

/-- A vitals snapshot in hypertensive crisis: 190/80 mmHg. -/
def crisis_record : HealthRecord :=
  { base_record with systolic_bp := some 190, diastolic_bp := some 80 }

/-- C9: a record already marked anomaly-processed is skipped entirely by
the evaluator (zero alerts, zero notifications, record untouched); and
after a first evaluation that fired at least one alert, the second
evaluation of the resulting record yields nothing further. -/
theorem C9_anomaly_idempotent :
    (∀ (p : Patient) (r : HealthRecord) (now : ℚ), r.anomaly_detected = true →
      process_health_record p r now = ([], r)) ∧
    (∀ (p : Patient) (r : HealthRecord) (now now2 : ℚ),
      0 < (evaluate_alerts r).length →
      process_health_record p (process_health_record p r now).2 now2 =
        ([], (process_health_record p r now).2)) := by
  constructor
  · intro p r now h
    simp [process_health_record, h]
  · intro p r now now2 h
    by_cases ha : r.anomaly_detected
    · simp [process_health_record, ha]
    · have h2 : (process_health_record p r now).2 =
          { r with anomaly_detected := true } := by
        simp [process_health_record, ha]
        exact h
      rw [h2]
      simp [process_health_record]

/-- Witness for C9: the crisis record is processed once (firing alerts) and
a second evaluation produces nothing. -/
theorem C9_anomaly_idempotent_witness :
    process_health_record base_patient
        (process_health_record base_patient crisis_record 2).2 3 =
      ([], (process_health_record base_patient crisis_record 2).2) ∧
    process_health_record base_patient
        { crisis_record with anomaly_detected := true } 2 =
      ([], { crisis_record with anomaly_detected := true }) :=
  ⟨C9_anomaly_idempotent.2 base_patient crisis_record 2 3 (by decide),
   C9_anomaly_idempotent.1 base_patient
     { crisis_record with anomaly_detected := true } 2 rfl⟩

/-! ## Claim C1 -/

/-- A vitals snapshot with only the systolic reading present. -/
def systolic_only_record : HealthRecord :=
  { base_record with systolic_bp := some 190 }

/-- The critical hypertensive-crisis alert fired on the 190/80 record. -/
def sample_alert : Alert :=
  { type := "hypertensive_crisis"
    message := "Hypertensive crisis detected: 190/80 mmHg"
    priority := "critical" }

/-- C1 counterexample: a record with systolic_bp = 190 and no diastolic
reading crosses the rule-table threshold (systolic > 180) but yields no
hypertensive-crisis alert, because the blood-pressure rule requires both
components to be present; only the general critical-vitals alert fires. -/
theorem C1_bp_rule_needs_both_components :
    evaluate_alerts systolic_only_record =
      [{ type := "critical_vitals"
         message := "Critical vital signs detected: []"
         priority := "critical" }] ∧ (190 : ℚ) > 180 :=
  ⟨rfl, by norm_num⟩

/-- C1 amended: evaluation skips missing vitals rather than treating them
as zero (a rule whose column is absent cannot fire), the blood-pressure
rules additionally require both components (systolic 190 with diastolic
present fires the critical hypertensive-crisis alert), and every fired
alert seeds one notification to the patient plus, when a primary physician
is assigned, one to the physician with the patient name in front of the
message - all created in the pending state. -/
theorem C1_alert_notifications_pending :
    (∀ (p : Patient) (a : Alert) (now : ℚ), p.primary_physician = none →
      alert_notifications p a now =
        [create_health_alert p.user_id p.id a.message
          (notification_priority_of a.priority) now]) ∧
    (∀ (p : Patient) (a : Alert) (now : ℚ) (d : ℤ), p.primary_physician = some d →
      alert_notifications p a now =
        [create_health_alert p.user_id p.id a.message
          (notification_priority_of a.priority) now,
         create_health_alert d p.id ("Patient " ++ p.full_name ++ ": " ++ a.message)
          (notification_priority_of a.priority) now]) ∧
    (∀ (p : Patient) (a : Alert) (now : ℚ) (n : Notification),
      n ∈ alert_notifications p a now → n.status = NotificationStatus.pending) ∧
    (∀ r : HealthRecord, r.heart_rate = none →
      ∀ a ∈ evaluate_alerts r, a.type ≠ "bradycardia") ∧
    (∀ r : HealthRecord, r.blood_sugar = none →
      ∀ a ∈ evaluate_alerts r, a.type ≠ "hypoglycemia") ∧
    sample_alert ∈ evaluate_alerts crisis_record := by
  refine ⟨?_, ?_, ?_, ?_, ?_, by decide⟩
  · intro p a now h
    simp [alert_notifications, h]
  · intro p a now d h
    simp [alert_notifications, h]
  · intro p a now n hn
    cases hp : p.primary_physician with
    | none =>
        simp [alert_notifications, hp] at hn
        rw [hn]
        rfl
    | some d =>
        simp [alert_notifications, hp] at hn
        rcases hn with hn | hn <;> rw [hn] <;> rfl
  · intro r h a ha
    simp only [evaluate_alerts, h, truthy, List.mem_append] at ha
    rcases ha with ((((h1 | h2) | h3) | h4) | h5)
    · split_ifs at h1 <;> simp_all
    · split_ifs at h2 <;> simp_all
    · split_ifs at h3 <;> simp_all
    · split_ifs at h4 <;> simp_all
    · split_ifs at h5 <;> simp_all
  · intro r h a ha
    simp only [evaluate_alerts, h, truthy, List.mem_append] at ha
    rcases ha with ((((h1 | h2) | h3) | h4) | h5)
    · split_ifs at h1 <;> simp_all
    · split_ifs at h2 <;> simp_all
    · split_ifs at h3 <;> simp_all
    · split_ifs at h4 <;> simp_all
    · split_ifs at h5 <;> simp_all

/-- Witness for C1 at the sample patient (physician assigned) and the
190/80 record. -/
theorem C1_alert_notifications_pending_witness :
    alert_notifications base_patient sample_alert 2 =
      [create_health_alert base_patient.user_id base_patient.id sample_alert.message
        (notification_priority_of sample_alert.priority) 2,
       create_health_alert 99 base_patient.id
        ("Patient " ++ base_patient.full_name ++ ": " ++ sample_alert.message)
        (notification_priority_of sample_alert.priority) 2] ∧
    (create_health_alert base_patient.user_id base_patient.id sample_alert.message
      (notification_priority_of sample_alert.priority) 2).status =
        NotificationStatus.pending ∧
    sample_alert.type ≠ "bradycardia" :=
  ⟨C1_alert_notifications_pending.2.1 base_patient sample_alert 2 99 rfl,
   C1_alert_notifications_pending.2.2.1 base_patient sample_alert 2 _ (by decide),
   C1_alert_notifications_pending.2.2.2.1 crisis_record rfl sample_alert (by decide)⟩

/-! ## Claim C10 -/

/-- A vitals snapshot whose only recorded value is heart_rate = 0. -/
def zero_hr_record : HealthRecord :=
  { base_record with heart_rate := some 0 }

/-- C10: a vital recorded as 0 is treated exactly like an absent vital by
truthiness testing, in the evaluator and in is_critical alike; in
particular heart_rate = 0 yields no bradycardia alert and a non-critical
record even though 0 < 50. -/
theorem C10_zero_vital_skipped :
    (is_critical zero_hr_record = false ∧ evaluate_alerts zero_hr_record = [] ∧
      (0 : ℚ) < 50) ∧
    (∀ r : HealthRecord, r.heart_rate = some 0 →
      evaluate_alerts r = evaluate_alerts { r with heart_rate := none } ∧
      is_critical r = is_critical { r with heart_rate := none }) ∧
    (∀ r : HealthRecord, r.systolic_bp = some 0 →
      evaluate_alerts r = evaluate_alerts { r with systolic_bp := none } ∧
      is_critical r = is_critical { r with systolic_bp := none }) ∧
    (∀ r : HealthRecord, r.diastolic_bp = some 0 →
      evaluate_alerts r = evaluate_alerts { r with diastolic_bp := none } ∧
      is_critical r = is_critical { r with diastolic_bp := none }) ∧
    (∀ r : HealthRecord, r.temperature = some 0 →
      evaluate_alerts r = evaluate_alerts { r with temperature := none } ∧
      is_critical r = is_critical { r with temperature := none }) ∧
    (∀ r : HealthRecord, r.oxygen_saturation = some 0 →
      evaluate_alerts r = evaluate_alerts { r with oxygen_saturation := none } ∧
      is_critical r = is_critical { r with oxygen_saturation := none }) ∧
    (∀ r : HealthRecord, r.blood_sugar = some 0 →
      evaluate_alerts r = evaluate_alerts { r with blood_sugar := none } ∧
      is_critical r = is_critical { r with blood_sugar := none }) := by
  refine ⟨⟨rfl, rfl, by norm_num⟩, ?_, ?_, ?_, ?_, ?_, ?_⟩ <;>
    (intro r h
     obtain ⟨sys, dia, hr, tmp, rr, ox, bs, an⟩ := r
     simp only at h
     subst h
     exact ⟨rfl, rfl⟩)

/-- Witness for C10 at the concrete record with heart_rate = 0. -/
theorem C10_zero_vital_skipped_witness :
    evaluate_alerts zero_hr_record =
      evaluate_alerts { zero_hr_record with heart_rate := none } ∧
    is_critical zero_hr_record =
      is_critical { zero_hr_record with heart_rate := none } :=
  C10_zero_vital_skipped.2.1 zero_hr_record rfl

end ElderlyMedicare
